import Mathlib

/-!
Shallow embedding of `cudaArray/cudaSurface3D.h` (namespace `cua`): the CRTP
base class `CudaSurface3DBase` and its two leaf specializations
`CudaSurface2DArray` (layered 2D surfaces) and `CudaSurface3D` (volumetric 3D
surfaces).

Modelling conventions:
* Device surface allocations live in a `Heap`: a list of optional refcounted
  `Surface` records indexed by handle.  The shared-ownership handle
  (`CudaSharedSurfaceObject`, a `shared_ptr`-backed type declared in
  `cudaArray3DBase.h`) is modelled by the handle index plus the refcount.
* An array instance (`CudaSurfaceInst`) carries the plain value fields:
  extents, launch shape, stream, the surface handle, and the boundary mode.
* The CUDA surface intrinsics (`surf2DLayeredread/write`, `surf3Dread/write`)
  are modelled from their documented semantics: byte-addressed x coordinate,
  boundary-mode handling of out-of-range accesses (zero mode reads 0 and drops
  writes, clamp mode clamps coordinates, trap mode faults = `none`), and a
  fault when the intrinsic family does not match the layout the surface was
  allocated with.
* `sizeof(Scalar)` is an explicit parameter `es` (element size in bytes).
* Fallible operations return `Option`/`Except`.
-/

namespace cua

/-- CUDA `dim3` (block/grid shape). Its single-argument constructor
`dim3(unsigned int)` is a non-explicit converting constructor, which matters
for overload resolution below. -/
structure Dim3 where
  x : Nat
  y : Nat
  z : Nat
  deriving DecidableEq

/-- `cudaSurfaceBoundaryMode`: policy for out-of-range surface accesses. -/
inductive BoundaryMode where
  | zero
  | clamp
  | trap
  deriving DecidableEq

/-- Errors reported by the CUDA runtime that this wrapper can surface. -/
inductive CudaError where
  | allocFailed
  deriving DecidableEq

/-- A device surface allocation: extents, whether it was allocated as a
layered (array-of-2D) or a true 3D array, and its contents, stored linearly
(index `x + width * (y + height * z)`). -/
structure Surface (T : Type) where
  width : Nat
  height : Nat
  depth : Nat
  layered : Bool
  data : Nat → T

/-- Linear element index of `(x, y, z)` inside a surface. -/
def Surface.index {T : Type} (s : Surface T) (x y z : Nat) : Nat :=
  x + s.width * (y + s.height * z)

/-- A heap cell: a live surface together with its `shared_ptr` reference
count. -/
structure SurfAlloc (T : Type) where
  surf : Surface T
  refcount : Nat

/-- The device heap: handle-indexed allocations (`none` = freed slot). -/
abbrev Heap (T : Type) : Type := List (Option (SurfAlloc T))

/-- Look up the surface object behind a handle (`get_cuda_api_object` plus the
runtime's dereference of the surface object). -/
def surfObj {T : Type} (hp : Heap T) (h : Nat) : Option (Surface T) :=
  (List.getD hp h none).map (fun al => al.surf)

/-- Store updated contents back into the allocation behind a handle. -/
def heapWriteSurf {T : Type} (hp : Heap T) (h : Nat) (s : Surface T) : Heap T :=
  match List.getD hp h none with
  | none => hp
  | some al => List.set hp h (some { al with surf := s })

/-- Taking another reference to an allocation (`shared_ptr` copy). -/
def acquire {T : Type} (hp : Heap T) (h : Nat) : Heap T :=
  match List.getD hp h none with
  | none => hp
  | some al => List.set hp h (some { al with refcount := al.refcount + 1 })

/-- Dropping a reference (`shared_ptr` release); frees the allocation when the
last reference is dropped. -/
def release {T : Type} (hp : Heap T) (h : Nat) : Heap T :=
  match List.getD hp h none with
  | none => hp
  | some al =>
      if al.refcount ≤ 1 then List.set hp h none
      else List.set hp h (some { al with refcount := al.refcount - 1 })

/-- Clamp an integer coordinate into `[0, n)` (clamp boundary mode). -/
def clampCoord (n : Nat) (c : Int) : Nat :=
  if c < 0 then 0 else min c.toNat (n - 1)

/-- Clamp a byte x-coordinate into the valid element range. -/
def clampByte (es w : Nat) (bx : Int) : Nat :=
  if bx < 0 then 0 else min ((bx / (es : Int)).toNat) (w - 1)

/-- Shared semantics of the CUDA surface read intrinsics, from their
documented behavior. `wantLayered` is the layout the intrinsic family expects;
using an intrinsic on a surface of the other layout faults (`none`).  The x
coordinate `bx` is in bytes; an access is in range when the whole element
fits inside the row and is element-aligned.  Out-of-range accesses follow the
boundary mode: zero mode reads a zero-filled value, clamp mode reads at the
clamped coordinates, trap mode faults. -/
def surfReadAux {T : Type} [Zero T] (wantLayered : Bool) (es : Nat)
    (s : Surface T) (bx y z : Int) (m : BoundaryMode) : Option T :=
  if s.layered = wantLayered ∧ 0 < es then
    if 0 ≤ bx ∧ bx + (es : Int) ≤ (es : Int) * (s.width : Int) ∧
        bx % (es : Int) = 0 ∧
        0 ≤ y ∧ y < (s.height : Int) ∧ 0 ≤ z ∧ z < (s.depth : Int) then
      some (s.data (s.index ((bx / (es : Int)).toNat) y.toNat z.toNat))
    else
      match m with
      | BoundaryMode.zero => some 0
      | BoundaryMode.clamp =>
          some (s.data (s.index (clampByte es s.width bx)
            (clampCoord s.height y) (clampCoord s.depth z)))
      | BoundaryMode.trap => none
  else none

/-- `surf2DLayeredread<T>(obj, bx, y, layer, mode)`: layered-2D read. -/
def surf2DLayeredread {T : Type} [Zero T] (es : Nat) (s : Surface T)
    (bx y layer : Int) (m : BoundaryMode) : Option T :=
  surfReadAux true es s bx y layer m

/-- `surf3Dread<T>(obj, bx, y, z, mode)`: volumetric 3D read. -/
def surf3Dread {T : Type} [Zero T] (es : Nat) (s : Surface T)
    (bx y z : Int) (m : BoundaryMode) : Option T :=
  surfReadAux false es s bx y z m

/-- Overwrite the element at linear index `i` of a surface. -/
def Surface.store {T : Type} (s : Surface T) (i : Nat) (v : T) : Surface T :=
  { s with data := fun k => if k = i then v else s.data k }

/-- Shared semantics of the CUDA surface write intrinsics: in-range writes
update the addressed element; out-of-range writes are dropped under zero mode,
clamped under clamp mode, and fault under trap mode. -/
def surfWriteAux {T : Type} (wantLayered : Bool) (es : Nat) (v : T)
    (s : Surface T) (bx y z : Int) (m : BoundaryMode) : Option (Surface T) :=
  if s.layered = wantLayered ∧ 0 < es then
    if 0 ≤ bx ∧ bx + (es : Int) ≤ (es : Int) * (s.width : Int) ∧
        bx % (es : Int) = 0 ∧
        0 ≤ y ∧ y < (s.height : Int) ∧ 0 ≤ z ∧ z < (s.depth : Int) then
      some (s.store (s.index ((bx / (es : Int)).toNat) y.toNat z.toNat) v)
    else
      match m with
      | BoundaryMode.zero => some s
      | BoundaryMode.clamp =>
          some (s.store (s.index (clampByte es s.width bx)
            (clampCoord s.height y) (clampCoord s.depth z)) v)
      | BoundaryMode.trap => none
  else none

/-- `surf2DLayeredwrite<T>(v, obj, bx, y, layer, mode)`. -/
def surf2DLayeredwrite {T : Type} (es : Nat) (v : T) (s : Surface T)
    (bx y layer : Int) (m : BoundaryMode) : Option (Surface T) :=
  surfWriteAux true es v s bx y layer m

/-- `surf3Dwrite<T>(v, obj, bx, y, z, mode)`. -/
def surf3Dwrite {T : Type} (es : Nat) (v : T) (s : Surface T)
    (bx y z : Int) (m : BoundaryMode) : Option (Surface T) :=
  surfWriteAux false es v s bx y z m

/-- The value fields of a `CudaSurface3DBase` instance: extents, block and
grid dimensions and stream (inherited from `CudaArray3DBase`), the surface
handle (`CudaSharedSurfaceObject` member `surface`), and `boundary_mode_`. -/
structure CudaSurfaceInst where
  width : Nat
  height : Nat
  depth : Nat
  blockDim : Dim3
  gridDim : Dim3
  stream : Nat
  handle : Nat
  boundaryMode : BoundaryMode
  deriving DecidableEq

/-- Placeholder instance used as the out-of-range default for store lookups. -/
def dfltInst : CudaSurfaceInst :=
  ⟨0, 0, 0, ⟨1, 1, 1⟩, ⟨1, 1, 1⟩, 0, 0, BoundaryMode.zero⟩

/-- A store of instance objects; an index into it stands for a C++ object
address, so `this == &other` is index equality. -/
abbrev Store : Type := List CudaSurfaceInst

/-- Modelled from the spec: the `CudaArray3DBase` constructor is declared in
`cudaArray3DBase.h`, which is not among the sources.  Per the spec it stores
the extents, block dimension, and stream, and "the default grid dimension is
computed automatically based on the array size" (ceil-divided by the block
dimension). -/
def computeGrid (w h d : Nat) (bd : Dim3) : Dim3 :=
  ⟨(w + bd.x - 1) / bd.x, (h + bd.y - 1) / bd.y, (d + bd.z - 1) / bd.z⟩

/-- Modelled from the spec: the allocating `CudaSharedSurfaceObject`
constructor is declared in `cudaArray3DBase.h`, which is not among the
sources.  Per the spec it "allocates a new device-backed surface of the given
extents" with the requested layered/3D layout and, on device allocation
failure, "propagates a runtime error" that the wrapper "does not catch,
translate, or retry".  `ok` stands for the device allocator's
success/failure response and `garbage` for the indeterminate contents of
freshly allocated device memory. -/
def allocSurface {T : Type} (ok : Bool) (garbage : Nat → T) (w h d : Nat)
    (layered : Bool) (hp : Heap T) : Except CudaError (Nat × Heap T) :=
  if ok then
    Except.ok (hp.length, hp ++ [some ⟨⟨w, h, d, layered, garbage⟩, 1⟩])
  else Except.error CudaError.allocFailed

/-- The `CudaSurface3DBase` constructor (header lines 153-160):
`Base(width, height, depth, block_dim, stream)`,
`boundary_mode_(boundary_mode)`, and
`surface(width, height, depth, CudaArrayTraits<Derived>::IS_LAYERED)`. -/
def construct {T : Type} (ok : Bool) (garbage : Nat → T) (w h d : Nat)
    (bd : Dim3) (stm : Nat) (bm : BoundaryMode) (layered : Bool)
    (hp : Heap T) : Except CudaError (CudaSurfaceInst × Heap T) :=
  match allocSurface ok garbage w h d layered hp with
  | Except.error e => Except.error e
  | Except.ok (hdl, hp2) =>
      Except.ok (⟨w, h, d, bd, computeGrid w h d bd, stm, hdl, bm⟩, hp2)

/-- The shallow copy constructor (header lines 164-170): `Base(other)` copies
the value fields, `boundary_mode_(other.boundary_mode_)`, and
`surface(other.surface)` takes another shared reference to the same
allocation. -/
def copyConstruct {T : Type} (hp : Heap T) (other : CudaSurfaceInst) :
    CudaSurfaceInst × Heap T :=
  (other, acquire hp other.handle)

/-- The shallow assignment `operator=(const CudaSurface3DBase&)` (header
lines 194-208), acting on the store: `b = a` with `b` at index `i` and `a` at
index `j`.  The source first returns unchanged when `this == &other`;
otherwise `Base::operator=(other)` copies the value fields,
`surface = other.surface` re-seats the shared reference (acquire the new
allocation, release the old one), and `boundary_mode_` is copied. -/
def instAssign {T : Type} (st : Store) (hp : Heap T) (i j : Nat) :
    Store × Heap T :=
  if i = j then (st, hp)
  else
    let other := List.getD st j dfltInst
    let b := List.getD st i dfltInst
    (List.set st i other, release (acquire hp other.handle) b.handle)

/-- The host-to-device assignment `operator=(const Scalar*)` (header lines
182-190): `cudaMemcpyToArray(surface.dev_array, 0, 0, host_array,
sizeof(Scalar) * width_ * height_ * depth_, cudaMemcpyHostToDevice)`.  The
byte count is taken from the instance's extents; no size is passed by the
caller and none is checked. -/
def hostArrayAssign {T : Type} (hp : Heap T) (a : CudaSurfaceInst) (es : Nat)
    (host : Nat → T) : Heap T :=
  match surfObj hp a.handle with
  | none => hp
  | some s =>
      let byteCount := es * a.width * a.height * a.depth
      let n := byteCount / es
      heapWriteSurf hp a.handle
        { s with data := fun k => if k < n then host k else s.data k }

/-- The device-to-host copy `copyTo(Scalar*)` (header lines 212-218):
`cudaMemcpyFromArray(host_array, surface.dev_array, 0, 0,
sizeof(Scalar) * width_ * height_ * depth_, cudaMemcpyDeviceToHost)`.
Returns the host buffer after the copy. -/
def copyTo {T : Type} (hp : Heap T) (a : CudaSurfaceInst) (es : Nat)
    (host : Nat → T) : Nat → T :=
  match surfObj hp a.handle with
  | none => host
  | some s =>
      let byteCount := es * a.width * a.height * a.depth
      let n := byteCount / es
      fun k => if k < n then s.data k else host k

/-- `get_boundary_mode()` (header lines 125-127). -/
def get_boundary_mode (a : CudaSurfaceInst) : BoundaryMode :=
  a.boundaryMode

/-- `set_boundary_mode(boundary_mode)` (header lines 132-135): assigns the
`boundary_mode_` field. -/
def set_boundary_mode (a : CudaSurfaceInst) (bm : BoundaryMode) :
    CudaSurfaceInst :=
  { a with boundaryMode := bm }

/-- `set_boundary_mode` acting on an instance store (with the device heap
carried along unchanged, since the mutator touches only the one object). -/
def setBoundaryModeOp {T : Type} (st : Store) (hp : Heap T) (i : Nat)
    (bm : BoundaryMode) : Store × Heap T :=
  (List.set st i (set_boundary_mode (List.getD st i dfltInst) bm), hp)

/-- `CudaArrayTraits<CudaSurface2DArray<T>>::IS_LAYERED` (header line 309). -/
def CudaSurface2DArray.IS_LAYERED : Bool := true

/-- `CudaArrayTraits<CudaSurface3D<T>>::IS_LAYERED` (header line 315). -/
def CudaSurface3D.IS_LAYERED : Bool := false

/-- `CudaSurface2DArray<T>::get(x, y, z)` (header lines 256-259):
`surf2DLayeredread<T>(surface.get_cuda_api_object(), sizeof(T) * x, y, z,
boundary_mode_)`. -/
def CudaSurface2DArray.get {T : Type} [Zero T] (es : Nat) (hp : Heap T)
    (a : CudaSurfaceInst) (x y z : Int) : Option T :=
  (surfObj hp a.handle).bind fun s =>
    surf2DLayeredread es s ((es : Int) * x) y z a.boundaryMode

/-- `CudaSurface2DArray<T>::set(x, y, z, v)` (header lines 244-247):
`surf2DLayeredwrite(v, surface.get_cuda_api_object(), sizeof(T) * x, y, z,
boundary_mode_)`; returns the updated heap. -/
def CudaSurface2DArray.set {T : Type} (es : Nat) (hp : Heap T)
    (a : CudaSurfaceInst) (x y z : Int) (v : T) : Option (Heap T) :=
  (surfObj hp a.handle).bind fun s =>
    (surf2DLayeredwrite es v s ((es : Int) * x) y z a.boundaryMode).map
      fun s2 => heapWriteSurf hp a.handle s2

/-- `CudaSurface3D<T>::get(x, y, z)` (header lines 294-297):
`surf3Dread<T>(surface.get_cuda_api_object(), sizeof(T) * x, y, z,
boundary_mode_)`. -/
def CudaSurface3D.get {T : Type} [Zero T] (es : Nat) (hp : Heap T)
    (a : CudaSurfaceInst) (x y z : Int) : Option T :=
  (surfObj hp a.handle).bind fun s =>
    surf3Dread es s ((es : Int) * x) y z a.boundaryMode

/-- `CudaSurface3D<T>::set(x, y, z, v)` (header lines 282-285):
`surf3Dwrite(v, surface.get_cuda_api_object(), sizeof(T) * x, y, z,
boundary_mode_)`; returns the updated heap. -/
def CudaSurface3D.set {T : Type} (es : Nat) (hp : Heap T)
    (a : CudaSurfaceInst) (x y z : Int) (v : T) : Option (Heap T) :=
  (surfObj hp a.handle).bind fun s =>
    (surf3Dwrite es v s ((es : Int) * x) y z a.boundaryMode).map
      fun s2 => heapWriteSurf hp a.handle s2

/-- Modelled from the spec: `CudaArray3DBase<Derived>::BLOCK_DIM`, the default
kernel block shape, is declared in `cudaArray3DBase.h`, which is not among the
sources; its exact value is irrelevant to every claim below. -/
def BLOCK_DIM : Dim3 := ⟨32, 8, 4⟩

/-- A C++ argument value as it appears at a call site of the
`CudaSurface3DBase` constructor: a `size_t`, a `dim3`, a `cudaStream_t`
variable, or a `cudaSurfaceBoundaryMode`. -/
inductive CppArg where
  | szt : Nat → CppArg
  | dim3v : Dim3 → CppArg
  | streamv : Nat → CppArg
  | bmodev : BoundaryMode → CppArg
  deriving DecidableEq

/-- Can the argument initialize a `size_t` parameter?  Only a `size_t` can:
`dim3` has no conversion operator to an integer, a pointer does not convert
to an integer, and a scoped-enum-free C enum would convert but the boundary
mode is passed where no integer parameter remains. -/
def toSizeT : CppArg → Option Nat
  | CppArg.szt n => some n
  | _ => none

/-- Can the argument initialize a `dim3` parameter?  `dim3` itself, or an
integer through the non-explicit converting constructor
`dim3(unsigned int vx = 1, uy = 1, uz = 1)` (the `size_t` is first narrowed
to `unsigned int`). -/
def toDim3 : CppArg → Option Dim3
  | CppArg.dim3v v => some v
  | CppArg.szt n => some ⟨n % 2 ^ 32, 1, 1⟩
  | _ => none

/-- Can the argument initialize a `cudaStream_t` (pointer) parameter?  Only a
stream variable; a `size_t` variable is not a null-pointer constant. -/
def toStream : CppArg → Option Nat
  | CppArg.streamv v => some v
  | _ => none

/-- Can the argument initialize a `cudaSurfaceBoundaryMode` parameter?  Only a
value of that enumeration; no standard conversion turns another of these
types into it. -/
def toBmode : CppArg → Option BoundaryMode
  | CppArg.bmodev v => some v
  | _ => none

/-- Overload resolution for a call to the six-parameter constructor
`CudaSurface3DBase(size_t width, size_t height, size_t depth,
dim3 block_dim = BLOCK_DIM, cudaStream_t stream = 0,
cudaSurfaceBoundaryMode boundary_mode = cudaBoundaryModeZero)` (header lines
72-76): each positional argument must initialize the parameter in its slot,
missing trailing arguments take the defaults, and extra arguments make the
call ill-formed (`none`). -/
def resolveCtor (args : List CppArg) :
    Option (Nat × Nat × Nat × Dim3 × Nat × BoundaryMode) :=
  match args with
  | a1 :: a2 :: a3 :: rest =>
      (toSizeT a1).bind fun w =>
        (toSizeT a2).bind fun h =>
          (toSizeT a3).bind fun d =>
            match rest with
            | [] => some (w, h, d, BLOCK_DIM, 0, BoundaryMode.zero)
            | [a4] =>
                (toDim3 a4).map fun bd => (w, h, d, bd, 0, BoundaryMode.zero)
            | [a4, a5] =>
                (toDim3 a4).bind fun bd =>
                  (toStream a5).map fun stm =>
                    (w, h, d, bd, stm, BoundaryMode.zero)
            | [a4, a5, a6] =>
                (toDim3 a4).bind fun bd =>
                  (toStream a5).bind fun stm =>
                    (toBmode a6).map fun bm => (w, h, d, bd, stm, bm)
            | _ => none
  | _ => none

/-- The argument list that `emptyCopy()` (header lines 174-178) passes to the
constructor: `CudaSurface3DBase<Derived>(width_, height_, block_dim_,
stream_, boundary_mode_)` — five arguments, with `depth_` missing and the
`dim3 block_dim_` sitting in the third (`size_t depth`) slot. -/
def emptyCopyArgs (a : CudaSurfaceInst) : List CppArg :=
  [CppArg.szt a.width, CppArg.szt a.height, CppArg.dim3v a.blockDim,
   CppArg.streamv a.stream, CppArg.bmodev a.boundaryMode]

/-- Number of shared references currently held on a handle. -/
def refcountAt {T : Type} (hp : Heap T) (h : Nat) : Nat :=
  match List.getD hp h none with
  | none => 0
  | some al => al.refcount

theorem getD_some_getElem {T : Type} {hp : Heap T} {h : Nat}
    {al : SurfAlloc T} (e : List.getD hp h none = some al) :
    hp[h]? = some (some al) := by
  rw [List.getD_eq_getElem?_getD] at e
  rcases q : hp[h]? with _ | o
  · rw [q] at e; exact Option.noConfusion e
  · rw [q] at e
    simp only [Option.getD_some] at e
    rw [e]

theorem getD_some_lt {T : Type} {hp : Heap T} {h : Nat} {al : SurfAlloc T}
    (e : List.getD hp h none = some al) : h < hp.length := by
  by_contra hlt
  have q : hp[h]? = none := List.getElem?_eq_none (by omega)
  rw [getD_some_getElem e] at q
  exact Option.noConfusion q

theorem surfObj_of_getD {T : Type} {hp : Heap T} {h : Nat} {al : SurfAlloc T}
    (e : List.getD hp h none = some al) : surfObj hp h = some al.surf := by
  unfold surfObj
  rw [e]
  rfl

theorem length_acquire {T : Type} (hp : Heap T) (h0 : Nat) :
    (acquire hp h0).length = hp.length := by
  unfold acquire
  split
  · rfl
  · simp

theorem length_release {T : Type} (hp : Heap T) (h0 : Nat) :
    (release hp h0).length = hp.length := by
  unfold release
  split
  · rfl
  · split <;> simp

theorem length_heapWriteSurf {T : Type} (hp : Heap T) (h0 : Nat)
    (s : Surface T) : (heapWriteSurf hp h0 s).length = hp.length := by
  unfold heapWriteSurf
  split
  · rfl
  · simp

theorem surfObj_acquire {T : Type} (hp : Heap T) (h0 h : Nat) :
    surfObj (acquire hp h0) h = surfObj hp h := by
  unfold acquire
  split
  · rfl
  case _ al e =>
    by_cases hh : h0 = h
    · subst hh
      unfold surfObj
      rw [List.getD_eq_getElem?_getD, List.getElem?_set_self (getD_some_lt e),
        e]
      rfl
    · unfold surfObj
      rw [List.getD_eq_getElem?_getD, List.getElem?_set_ne hh,
        ← List.getD_eq_getElem?_getD]

theorem surfObj_release_of_ne {T : Type} (hp : Heap T) {h0 h : Nat}
    (hne : h ≠ h0) : surfObj (release hp h0) h = surfObj hp h := by
  unfold release
  split
  · rfl
  case _ al e =>
    have hne2 : h0 ≠ h := fun hc => hne hc.symm
    split <;>
      · unfold surfObj
        rw [List.getD_eq_getElem?_getD, List.getElem?_set_ne hne2,
          ← List.getD_eq_getElem?_getD]

theorem refcountAt_of_getD {T : Type} {hp : Heap T} {h : Nat}
    {al : SurfAlloc T} (e : List.getD hp h none = some al) :
    refcountAt hp h = al.refcount := by
  unfold refcountAt
  rw [e]

theorem surfObj_release_self {T : Type} (hp : Heap T) {h : Nat}
    (h2 : 2 ≤ refcountAt hp h) : surfObj (release hp h) h = surfObj hp h := by
  unfold release
  split
  · rfl
  case _ al e =>
    rw [refcountAt_of_getD e] at h2
    have hr : ¬ al.refcount ≤ 1 := by omega
    rw [if_neg hr]
    unfold surfObj
    rw [List.getD_eq_getElem?_getD, List.getElem?_set_self (getD_some_lt e), e]
    rfl

theorem surfObj_release_or {T : Type} (hp : Heap T) (h0 h : Nat) :
    surfObj (release hp h0) h = surfObj hp h ∨
      surfObj (release hp h0) h = none := by
  by_cases hne : h = h0
  · subst hne
    unfold release
    split
    · left; rfl
    case _ al e =>
      split
      · right
        unfold surfObj
        rw [List.getD_eq_getElem?_getD, List.getElem?_set_self (getD_some_lt e)]
        rfl
      · left
        unfold surfObj
        rw [List.getD_eq_getElem?_getD, List.getElem?_set_self (getD_some_lt e),
          e]
        rfl
  · left; exact surfObj_release_of_ne hp hne

theorem refcountAt_acquire_self {T : Type} (hp : Heap T) (h : Nat)
    {al : SurfAlloc T} (e : List.getD hp h none = some al) :
    refcountAt (acquire hp h) h = refcountAt hp h + 1 := by
  unfold refcountAt acquire
  rw [e, List.getD_eq_getElem?_getD, List.getElem?_set_self (getD_some_lt e)]
  rfl

theorem surfObj_heapWriteSurf_self {T : Type} (hp : Heap T) {h : Nat}
    {s0 : Surface T} (live : surfObj hp h = some s0) (s : Surface T) :
    surfObj (heapWriteSurf hp h s) h = some s := by
  unfold surfObj at live
  unfold heapWriteSurf
  split
  case _ e => rw [e] at live; exact Option.noConfusion live
  case _ al e =>
    unfold surfObj
    rw [List.getD_eq_getElem?_getD, List.getElem?_set_self (getD_some_lt e)]
    rfl

theorem surfObj_heapWriteSurf_ne {T : Type} (hp : Heap T) {h0 h : Nat}
    (hne : h ≠ h0) (s : Surface T) :
    surfObj (heapWriteSurf hp h0 s) h = surfObj hp h := by
  unfold heapWriteSurf
  split
  · rfl
  case _ al e =>
    unfold surfObj
    rw [List.getD_eq_getElem?_getD,
      List.getElem?_set_ne (fun hc => hne hc.symm),
      ← List.getD_eq_getElem?_getD]

theorem surfObj_some_elim {T : Type} {hp : Heap T} {h : Nat} {s : Surface T}
    (e : surfObj hp h = some s) :
    ∃ al : SurfAlloc T, List.getD hp h none = some al ∧ al.surf = s := by
  unfold surfObj at e
  rcases q : List.getD hp h none with _ | al
  · rw [q] at e; exact Option.noConfusion e
  · rw [q] at e
    exact ⟨al, rfl, by simpa using e⟩

theorem surfReadAux_elem {T : Type} [Zero T] {wl : Bool} {es : Nat}
    (hes : 0 < es) {s : Surface T} (hl : s.layered = wl) {x y z : Int}
    (m : BoundaryMode) (hx : 0 ≤ x) (hxw : x < (s.width : Int)) (hy : 0 ≤ y)
    (hyh : y < (s.height : Int)) (hz : 0 ≤ z) (hzd : z < (s.depth : Int)) :
    surfReadAux wl es s ((es : Int) * x) y z m =
      some (s.data (s.index x.toNat y.toNat z.toNat)) := by
  have hes' : (0 : Int) < (es : Int) := by exact_mod_cast hes
  have hnn : 0 ≤ (es : Int) * x := mul_nonneg hes'.le hx
  have hub : (es : Int) * x + (es : Int) ≤ (es : Int) * (s.width : Int) := by
    have h1 : (es : Int) * x + (es : Int) = (es : Int) * (x + 1) := by ring
    rw [h1]
    exact mul_le_mul_of_nonneg_left (by omega) hes'.le
  have hmod : ((es : Int) * x) % (es : Int) = 0 := Int.mul_emod_right _ _
  unfold surfReadAux
  rw [if_pos ⟨hl, hes⟩, if_pos ⟨hnn, hub, hmod, hy, hyh, hz, hzd⟩,
    Int.mul_ediv_cancel_left _ (by exact_mod_cast hes.ne')]

theorem surfReadAux_out_zero {T : Type} [Zero T] {wl : Bool} {es : Nat}
    (hes : 0 < es) {s : Surface T} (hl : s.layered = wl) {x y z : Int}
    (hout : ¬(0 ≤ x ∧ x < (s.width : Int) ∧ 0 ≤ y ∧ y < (s.height : Int) ∧
      0 ≤ z ∧ z < (s.depth : Int))) :
    surfReadAux wl es s ((es : Int) * x) y z BoundaryMode.zero = some 0 := by
  have hes' : (0 : Int) < (es : Int) := by exact_mod_cast hes
  have hneg : ¬(0 ≤ (es : Int) * x ∧
      (es : Int) * x + (es : Int) ≤ (es : Int) * (s.width : Int) ∧
      ((es : Int) * x) % (es : Int) = 0 ∧
      0 ≤ y ∧ y < (s.height : Int) ∧ 0 ≤ z ∧ z < (s.depth : Int)) := by
    rintro ⟨h1, h2, _, h4, h5, h6, h7⟩
    refine hout ⟨nonneg_of_mul_nonneg_right h1 hes', by nlinarith, h4, h5, h6,
      h7⟩
  unfold surfReadAux
  rw [if_pos ⟨hl, hes⟩, if_neg hneg]

theorem surfWriteAux_elem {T : Type} {wl : Bool} {es : Nat} (hes : 0 < es)
    {s : Surface T} (hl : s.layered = wl) (v : T) {x y z : Int}
    (m : BoundaryMode) (hx : 0 ≤ x) (hxw : x < (s.width : Int)) (hy : 0 ≤ y)
    (hyh : y < (s.height : Int)) (hz : 0 ≤ z) (hzd : z < (s.depth : Int)) :
    surfWriteAux wl es v s ((es : Int) * x) y z m =
      some (s.store (s.index x.toNat y.toNat z.toNat) v) := by
  have hes' : (0 : Int) < (es : Int) := by exact_mod_cast hes
  have hnn : 0 ≤ (es : Int) * x := mul_nonneg hes'.le hx
  have hub : (es : Int) * x + (es : Int) ≤ (es : Int) * (s.width : Int) := by
    have h1 : (es : Int) * x + (es : Int) = (es : Int) * (x + 1) := by ring
    rw [h1]
    exact mul_le_mul_of_nonneg_left (by omega) hes'.le
  have hmod : ((es : Int) * x) % (es : Int) = 0 := Int.mul_emod_right _ _
  unfold surfWriteAux
  rw [if_pos ⟨hl, hes⟩, if_pos ⟨hnn, hub, hmod, hy, hyh, hz, hzd⟩,
    Int.mul_ediv_cancel_left _ (by exact_mod_cast hes.ne')]

theorem set_get_crossover3D {T : Type} [Zero T] (es : Nat) (hp : Heap T)
    (b a : CudaSurfaceInst) (hh : b.handle = a.handle) {s0 : Surface T}
    (e : surfObj hp a.handle = some s0) (hlay : s0.layered = false)
    (hes : 0 < es) {x y z : Int} (hx : 0 ≤ x) (hxw : x < (s0.width : Int))
    (hy : 0 ≤ y) (hyh : y < (s0.height : Int)) (hz : 0 ≤ z)
    (hzd : z < (s0.depth : Int)) (v : T) :
    CudaSurface3D.set es hp b x y z v =
      some (heapWriteSurf hp a.handle
        (s0.store (s0.index x.toNat y.toNat z.toNat) v)) ∧
    CudaSurface3D.get es
      (heapWriteSurf hp a.handle (s0.store (s0.index x.toNat y.toNat z.toNat) v))
      a x y z = some v := by
  constructor
  · unfold CudaSurface3D.set
    rw [hh, e]
    unfold surf3Dwrite
    rw [Option.some_bind]
    rw [surfWriteAux_elem hes hlay v b.boundaryMode hx hxw hy hyh hz hzd]
    rfl
  · unfold CudaSurface3D.get
    rw [surfObj_heapWriteSurf_self hp e _, Option.some_bind]
    unfold surf3Dread
    have hr := surfReadAux_elem
      (s := s0.store (s0.index x.toNat y.toNat z.toNat) v) hes hlay
      a.boundaryMode hx hxw hy hyh hz hzd
    rw [hr]
    show some (if s0.index x.toNat y.toNat z.toNat =
      s0.index x.toNat y.toNat z.toNat then v
      else s0.data (s0.index x.toNat y.toNat z.toNat)) = some v
    rw [if_pos rfl]

theorem instAssign_self_eq {T : Type} (st : Store) (hp : Heap T) (i : Nat) :
    instAssign st hp i i = (st, hp) := by
  simp [instAssign]

theorem instAssign_ne_eq {T : Type} (st : Store) (hp : Heap T) {i j : Nat}
    (hij : i ≠ j) :
    instAssign st hp i j =
      (List.set st i (List.getD st j dfltInst),
        release (acquire hp (List.getD st j dfltInst).handle)
          (List.getD st i dfltInst).handle) := by
  unfold instAssign
  rw [if_neg hij]

theorem getD_set_self_of_lt {α : Type} (l : List α) (o d : α) {i : Nat}
    (hi : i < l.length) : List.getD (List.set l i o) i d = o := by
  rw [List.getD_eq_getElem?_getD, List.getElem?_set_self hi]
  rfl

theorem getD_set_ne {α : Type} (l : List α) (o d : α) {i j : Nat}
    (hij : i ≠ j) : List.getD (List.set l i o) j d = List.getD l j d := by
  rw [List.getD_eq_getElem?_getD, List.getElem?_set_ne hij,
    ← List.getD_eq_getElem?_getD]

theorem instAssign_state {T : Type} (st : Store) (hp : Heap T) (i j : Nat)
    {s0 : Surface T} (hi : i < st.length)
    (e0 : surfObj hp (List.getD st j dfltInst).handle = some s0)
    (hrc : 1 ≤ refcountAt hp (List.getD st j dfltInst).handle) :
    List.getD (instAssign st hp i j).1 i dfltInst = List.getD st j dfltInst ∧
    List.getD (instAssign st hp i j).1 j dfltInst = List.getD st j dfltInst ∧
    surfObj (instAssign st hp i j).2 (List.getD st j dfltInst).handle =
      some s0 := by
  by_cases hij : i = j
  · subst hij
    rw [instAssign_self_eq]
    exact ⟨rfl, rfl, e0⟩
  · rw [instAssign_ne_eq st hp hij]
    refine ⟨getD_set_self_of_lt st _ _ hi, getD_set_ne st _ _ hij, ?_⟩
    by_cases hbh : (List.getD st i dfltInst).handle =
        (List.getD st j dfltInst).handle
    · rw [hbh]
      obtain ⟨al, hal, -⟩ := surfObj_some_elim e0
      have hrc2 : 2 ≤ refcountAt
          (acquire hp (List.getD st j dfltInst).handle)
          (List.getD st j dfltInst).handle := by
        rw [refcountAt_acquire_self hp _ hal]
        rw [refcountAt_of_getD hal] at hrc ⊢
        omega
      rw [surfObj_release_self _ hrc2, surfObj_acquire]
      exact e0
    · rw [surfObj_release_of_ne _ (fun hc => hbh hc.symm), surfObj_acquire]
      exact e0

/-- C2: after the shallow assignment `b = a` both instances carry the same
surface handle, and an in-extent `set(x, y, z, v)` through either one is
observable as `get(x, y, z) = v` through the other (shown here for the
`CudaSurface3D` leaf, whose surfaces are non-layered). -/
theorem instAssign_shares_writes {T : Type} [Zero T] (st : Store)
    (hp : Heap T) (i j es : Nat) (x y z : Int) (v v2 : T) (s0 : Surface T)
    (hi : i < st.length)
    (e0 : surfObj hp (List.getD st j dfltInst).handle = some s0)
    (hrc : 1 ≤ refcountAt hp (List.getD st j dfltInst).handle)
    (hes : 0 < es) (hlay : s0.layered = false) (hx : 0 ≤ x)
    (hxw : x < (s0.width : Int)) (hy : 0 ≤ y) (hyh : y < (s0.height : Int))
    (hz : 0 ≤ z) (hzd : z < (s0.depth : Int)) :
    (List.getD (instAssign st hp i j).1 i dfltInst).handle =
      (List.getD (instAssign st hp i j).1 j dfltInst).handle ∧
    (∃ hp2, CudaSurface3D.set es (instAssign st hp i j).2
        (List.getD (instAssign st hp i j).1 i dfltInst) x y z v = some hp2 ∧
      CudaSurface3D.get es hp2 (List.getD (instAssign st hp i j).1 j dfltInst)
        x y z = some v) ∧
    (∃ hp2, CudaSurface3D.set es (instAssign st hp i j).2
        (List.getD (instAssign st hp i j).1 j dfltInst) x y z v2 = some hp2 ∧
      CudaSurface3D.get es hp2 (List.getD (instAssign st hp i j).1 i dfltInst)
        x y z = some v2) := by
  obtain ⟨hb, ha, hheap⟩ := instAssign_state st hp i j hi e0 hrc
  refine ⟨by rw [hb, ha], ?_, ?_⟩
  · obtain ⟨hset, hget⟩ := set_get_crossover3D es (instAssign st hp i j).2
      (List.getD (instAssign st hp i j).1 i dfltInst)
      (List.getD (instAssign st hp i j).1 j dfltInst)
      (by rw [hb, ha]) (by rw [ha]; exact hheap) hlay hes hx hxw hy hyh hz
      hzd v
    exact ⟨_, hset, hget⟩
  · obtain ⟨hset, hget⟩ := set_get_crossover3D es (instAssign st hp i j).2
      (List.getD (instAssign st hp i j).1 j dfltInst)
      (List.getD (instAssign st hp i j).1 i dfltInst)
      (by rw [hb, ha]) (by rw [hb]; exact hheap) hlay hes hx hxw hy hyh hz
      hzd v2
    exact ⟨_, hset, hget⟩

/-- Witness for C2: a two-instance store over a two-allocation heap; after
`b = a` (indices 0 and 1) the two store slots carry one handle. -/
theorem instAssign_shares_writes_witness :
    (List.getD (instAssign
        [⟨1, 1, 1, ⟨1, 1, 1⟩, ⟨1, 1, 1⟩, 0, 0, BoundaryMode.zero⟩,
          ⟨2, 3, 4, ⟨1, 1, 1⟩, ⟨1, 1, 1⟩, 0, 1, BoundaryMode.zero⟩]
        ([some ⟨⟨1, 1, 1, false, fun _ => (5 : Int)⟩, 1⟩,
          some ⟨⟨2, 3, 4, false, fun _ => 7⟩, 1⟩] : Heap Int) 0 1).1 0
      dfltInst).handle =
    (List.getD (instAssign
        [⟨1, 1, 1, ⟨1, 1, 1⟩, ⟨1, 1, 1⟩, 0, 0, BoundaryMode.zero⟩,
          ⟨2, 3, 4, ⟨1, 1, 1⟩, ⟨1, 1, 1⟩, 0, 1, BoundaryMode.zero⟩]
        ([some ⟨⟨1, 1, 1, false, fun _ => (5 : Int)⟩, 1⟩,
          some ⟨⟨2, 3, 4, false, fun _ => 7⟩, 1⟩] : Heap Int) 0 1).1 1
      dfltInst).handle :=
  (instAssign_shares_writes
    [⟨1, 1, 1, ⟨1, 1, 1⟩, ⟨1, 1, 1⟩, 0, 0, BoundaryMode.zero⟩,
      ⟨2, 3, 4, ⟨1, 1, 1⟩, ⟨1, 1, 1⟩, 0, 1, BoundaryMode.zero⟩]
    ([some ⟨⟨1, 1, 1, false, fun _ => (5 : Int)⟩, 1⟩,
      some ⟨⟨2, 3, 4, false, fun _ => 7⟩, 1⟩] : Heap Int) 0 1 4 1 2 3 42 9
    ⟨2, 3, 4, false, fun _ => 7⟩ (by decide) rfl (Nat.le_refl 1) (by decide)
    rfl (by decide) (by decide) (by decide) (by decide) (by decide)
    (by decide)).1

/-- C1 (code bug): the constructor call that `emptyCopy()` performs,
`CudaSurface3DBase<Derived>(width_, height_, block_dim_, stream_,
boundary_mode_)`, omits `depth_`, so the `dim3 block_dim_` sits in the
`size_t depth` parameter slot, where no implicit conversion exists.  Overload
resolution against the six-parameter constructor therefore fails for every
instance: `emptyCopy` can never produce an instance whose depth (or any
configuration) matches the source's, contradicting its own documentation
("Create an empty array of the same size as the current array"). -/
theorem emptyCopy_call_ill_formed (a : CudaSurfaceInst) :
    resolveCtor (emptyCopyArgs a) = none := rfl

/-- C10: self-assignment `a = a` hits the `this == &other` early return, so
the instance store and the device heap (hence every field of `a` and every
reference count) are returned unchanged: no handle is released or
re-acquired. -/
theorem instAssign_self_noop {T : Type} (st : Store) (hp : Heap T) (i : Nat) :
    instAssign st hp i i = (st, hp) := by
  simp [instAssign]

/-- C9: on allocator success the constructor yields an instance carrying
exactly the requested extents, block dimension, stream, and boundary mode,
whose handle is fresh (unallocated beforehand) and afterwards holds a
device surface of exactly those extents and the requested layout; on
allocator failure the constructor propagates the runtime error unchanged. -/
theorem construct_allocates_or_propagates {T : Type} (g : Nat → T)
    (w h d : Nat) (bd : Dim3) (stm : Nat) (bm : BoundaryMode) (lay : Bool)
    (hp : Heap T) :
    (∃ inst hp2,
      construct true g w h d bd stm bm lay hp = Except.ok (inst, hp2) ∧
      inst.width = w ∧ inst.height = h ∧ inst.depth = d ∧
      inst.blockDim = bd ∧ inst.stream = stm ∧ inst.boundaryMode = bm ∧
      surfObj hp inst.handle = none ∧
      surfObj hp2 inst.handle = some ⟨w, h, d, lay, g⟩) ∧
    construct false g w h d bd stm bm lay hp =
      Except.error CudaError.allocFailed := by
  constructor
  · refine ⟨⟨w, h, d, bd, computeGrid w h d bd, stm, hp.length, bm⟩,
      hp ++ [some ⟨⟨w, h, d, lay, g⟩, 1⟩], by rfl, rfl, rfl, rfl, rfl, rfl,
      rfl, ?_, ?_⟩
    · unfold surfObj
      rw [List.getD_eq_getElem?_getD, List.getElem?_eq_none (le_refl _)]
      rfl
    · unfold surfObj
      rw [List.getD_eq_getElem?_getD]
      rw [show (⟨w, h, d, bd, computeGrid w h d bd, stm, hp.length, bm⟩ :
        CudaSurfaceInst).handle = hp.length from rfl]
      rw [List.getElem?_concat_length]
      rfl
  · rfl

/-- C8: `set_boundary_mode(m)` updates only the boundary-mode field of the
instance it is called on: `get_boundary_mode` then returns `m`, every other
field of that instance is unchanged, the device heap is untouched, and every
other instance in the store — including one sharing the same surface handle —
is left exactly as it was. -/
theorem set_boundary_mode_frame {T : Type} (st : Store) (hp : Heap T)
    (i j : Nat) (m : BoundaryMode) (a : CudaSurfaceInst) (hij : j ≠ i) :
    get_boundary_mode (set_boundary_mode a m) = m ∧
    (set_boundary_mode a m).width = a.width ∧
    (set_boundary_mode a m).height = a.height ∧
    (set_boundary_mode a m).depth = a.depth ∧
    (set_boundary_mode a m).blockDim = a.blockDim ∧
    (set_boundary_mode a m).gridDim = a.gridDim ∧
    (set_boundary_mode a m).stream = a.stream ∧
    (set_boundary_mode a m).handle = a.handle ∧
    (setBoundaryModeOp st hp i m).2 = hp ∧
    List.getD (setBoundaryModeOp st hp i m).1 j dfltInst =
      List.getD st j dfltInst := by
  refine ⟨rfl, rfl, rfl, rfl, rfl, rfl, rfl, rfl, rfl, ?_⟩
  unfold setBoundaryModeOp
  rw [List.getD_eq_getElem?_getD, List.getElem?_set_ne (Ne.symm hij),
    ← List.getD_eq_getElem?_getD]

/-- Witness for C8 at a concrete store of two instances sharing handle 0. -/
theorem set_boundary_mode_frame_witness :
    (1 : Nat) ≠ 0 ∧
    (get_boundary_mode (set_boundary_mode dfltInst BoundaryMode.clamp) =
        BoundaryMode.clamp ∧
      (set_boundary_mode dfltInst BoundaryMode.clamp).width = dfltInst.width ∧
      (set_boundary_mode dfltInst BoundaryMode.clamp).height =
        dfltInst.height ∧
      (set_boundary_mode dfltInst BoundaryMode.clamp).depth = dfltInst.depth ∧
      (set_boundary_mode dfltInst BoundaryMode.clamp).blockDim =
        dfltInst.blockDim ∧
      (set_boundary_mode dfltInst BoundaryMode.clamp).gridDim =
        dfltInst.gridDim ∧
      (set_boundary_mode dfltInst BoundaryMode.clamp).stream =
        dfltInst.stream ∧
      (set_boundary_mode dfltInst BoundaryMode.clamp).handle =
        dfltInst.handle ∧
      (setBoundaryModeOp [dfltInst, dfltInst] ([] : Heap Int) 0
        BoundaryMode.clamp).2 = ([] : Heap Int) ∧
      List.getD (setBoundaryModeOp [dfltInst, dfltInst] ([] : Heap Int) 0
        BoundaryMode.clamp).1 1 dfltInst =
        List.getD [dfltInst, dfltInst] 1 dfltInst) :=
  ⟨by decide,
    set_boundary_mode_frame [dfltInst, dfltInst] ([] : Heap Int) 0 1
      BoundaryMode.clamp dfltInst (by decide)⟩

theorem hostArrayAssign_eq {T : Type} (hp : Heap T) (a : CudaSurfaceInst)
    (es : Nat) (host : Nat → T) {s0 : Surface T}
    (e : surfObj hp a.handle = some s0) :
    hostArrayAssign hp a es host = heapWriteSurf hp a.handle
      { s0 with data := fun k =>
          if k < (es * a.width * a.height * a.depth) / es then host k
          else s0.data k } := by
  unfold hostArrayAssign
  rw [e]

theorem copyTo_eq {T : Type} (hp : Heap T) (a : CudaSurfaceInst) (es : Nat)
    (host : Nat → T) {s0 : Surface T} (e : surfObj hp a.handle = some s0) :
    copyTo hp a es host = fun k =>
      if k < (es * a.width * a.height * a.depth) / es then s0.data k
      else host k := by
  unfold copyTo
  rw [e]

theorem byteCount_div {es w h d : Nat} (hes : 0 < es) :
    (es * w * h * d) / es = w * h * d := by
  have hassoc : es * w * h * d = es * (w * h * d) := by ring
  rw [hassoc, Nat.mul_div_cancel_left _ hes]

theorem surfReadAux_mismatch {T : Type} [Zero T] {wl : Bool} {es : Nat}
    (s : Surface T) (hl : s.layered ≠ wl) (bx y z : Int) (m : BoundaryMode) :
    surfReadAux wl es s bx y z m = none := by
  unfold surfReadAux
  rw [if_neg (fun hc => hl hc.1)]

/-- C3: `a.copyTo(hostBuf)` followed by `b = hostBuf`, with `b` of the same
extents as `a`, reproduces `a`'s element values element for element in `b`'s
allocation. -/
theorem copyTo_then_hostAssign_roundtrip {T : Type} (hp : Heap T)
    (a b : CudaSurfaceInst) (es : Nat) (host0 : Nat → T)
    (sa sb : Surface T) (hes : 0 < es)
    (ea : surfObj hp a.handle = some sa) (eb : surfObj hp b.handle = some sb)
    (hw : b.width = a.width) (hh : b.height = a.height)
    (hd : b.depth = a.depth) :
    ∃ s1, surfObj (hostArrayAssign hp b es (copyTo hp a es host0)) b.handle =
        some s1 ∧
      ∀ n, n < a.width * a.height * a.depth → s1.data n = sa.data n := by
  rw [hostArrayAssign_eq hp b es _ eb, copyTo_eq hp a es host0 ea]
  refine ⟨_, surfObj_heapWriteSurf_self hp eb _, ?_⟩
  intro n hn
  show (if n < (es * b.width * b.height * b.depth) / es then
    (if n < (es * a.width * a.height * a.depth) / es then sa.data n
      else host0 n)
    else sb.data n) = sa.data n
  rw [if_pos, if_pos]
  · rw [byteCount_div hes]; exact hn
  · rw [byteCount_div hes, hw, hh, hd]; exact hn

/-- Witness for C3: a 2×1×2 array riding the round trip through a host
buffer lands its four elements unchanged in the destination allocation. -/
theorem copyTo_then_hostAssign_roundtrip_witness :
    ∃ s1, surfObj (hostArrayAssign
        ([some ⟨⟨2, 1, 2, false, fun k => (k : Int)⟩, 1⟩,
          some ⟨⟨2, 1, 2, false, fun _ => 0⟩, 1⟩] : Heap Int)
        ⟨2, 1, 2, ⟨1, 1, 1⟩, ⟨1, 1, 1⟩, 0, 1, BoundaryMode.zero⟩ 4
        (copyTo
          ([some ⟨⟨2, 1, 2, false, fun k => (k : Int)⟩, 1⟩,
            some ⟨⟨2, 1, 2, false, fun _ => 0⟩, 1⟩] : Heap Int)
          ⟨2, 1, 2, ⟨1, 1, 1⟩, ⟨1, 1, 1⟩, 0, 0, BoundaryMode.zero⟩ 4
          (fun _ => 0)))
        (⟨2, 1, 2, ⟨1, 1, 1⟩, ⟨1, 1, 1⟩, 0, 1, BoundaryMode.zero⟩ :
          CudaSurfaceInst).handle = some s1 ∧
      ∀ n, n < (⟨2, 1, 2, ⟨1, 1, 1⟩, ⟨1, 1, 1⟩, 0, 0, BoundaryMode.zero⟩ :
          CudaSurfaceInst).width *
        (⟨2, 1, 2, ⟨1, 1, 1⟩, ⟨1, 1, 1⟩, 0, 0, BoundaryMode.zero⟩ :
          CudaSurfaceInst).height *
        (⟨2, 1, 2, ⟨1, 1, 1⟩, ⟨1, 1, 1⟩, 0, 0, BoundaryMode.zero⟩ :
          CudaSurfaceInst).depth →
        s1.data n = (fun k => (k : Int)) n :=
  copyTo_then_hostAssign_roundtrip
    ([some ⟨⟨2, 1, 2, false, fun k => (k : Int)⟩, 1⟩,
      some ⟨⟨2, 1, 2, false, fun _ => 0⟩, 1⟩] : Heap Int)
    ⟨2, 1, 2, ⟨1, 1, 1⟩, ⟨1, 1, 1⟩, 0, 0, BoundaryMode.zero⟩
    ⟨2, 1, 2, ⟨1, 1, 1⟩, ⟨1, 1, 1⟩, 0, 1, BoundaryMode.zero⟩ 4 (fun _ => 0)
    ⟨2, 1, 2, false, fun k => (k : Int)⟩ ⟨2, 1, 2, false, fun _ => 0⟩
    (by decide) rfl rfl rfl rfl rfl

/-- C4: each host transfer moves exactly width × height × depth elements
(the byte count `sizeof(Scalar) * width_ * height_ * depth_` divided by the
element size): host-to-device assignment overwrites exactly the first
width × height × depth elements of the allocation and reads nothing of the
host buffer beyond them, and `copyTo` fills exactly the first
width × height × depth entries of the host buffer, leaving the rest
untouched.  No size argument exists to validate. -/
theorem host_transfer_exact_count {T : Type} (hp : Heap T)
    (a : CudaSurfaceInst) (es : Nat) (host host2 : Nat → T) (s0 : Surface T)
    (hes : 0 < es) (e : surfObj hp a.handle = some s0)
    (hagree : ∀ n, n < a.width * a.height * a.depth → host n = host2 n) :
    (es * a.width * a.height * a.depth) / es =
      a.width * a.height * a.depth ∧
    (∃ s1, surfObj (hostArrayAssign hp a es host) a.handle = some s1 ∧
      (∀ n, n < a.width * a.height * a.depth → s1.data n = host n) ∧
      (∀ n, a.width * a.height * a.depth ≤ n → s1.data n = s0.data n)) ∧
    hostArrayAssign hp a es host = hostArrayAssign hp a es host2 ∧
    (∀ n, n < a.width * a.height * a.depth →
      copyTo hp a es host n = s0.data n) ∧
    (∀ n, a.width * a.height * a.depth ≤ n →
      copyTo hp a es host n = host n) := by
  refine ⟨byteCount_div hes, ?_, ?_, ?_, ?_⟩
  · rw [hostArrayAssign_eq hp a es host e]
    refine ⟨_, surfObj_heapWriteSurf_self hp e _, ?_, ?_⟩
    · intro n hn
      show (if n < (es * a.width * a.height * a.depth) / es then host n
        else s0.data n) = host n
      rw [if_pos (by rw [byteCount_div hes]; exact hn)]
    · intro n hn
      show (if n < (es * a.width * a.height * a.depth) / es then host n
        else s0.data n) = s0.data n
      rw [if_neg (by rw [byteCount_div hes]; omega)]
  · rw [hostArrayAssign_eq hp a es host e, hostArrayAssign_eq hp a es host2 e]
    have hfun : (fun k =>
        if k < (es * a.width * a.height * a.depth) / es then host k
        else s0.data k) = (fun k =>
        if k < (es * a.width * a.height * a.depth) / es then host2 k
        else s0.data k) := by
      funext k
      by_cases hk : k < (es * a.width * a.height * a.depth) / es
      · rw [if_pos hk, if_pos hk,
          hagree k (by rw [byteCount_div hes] at hk; exact hk)]
      · rw [if_neg hk, if_neg hk]
    rw [hfun]
  · intro n hn
    rw [copyTo_eq hp a es host e]
    show (if n < (es * a.width * a.height * a.depth) / es then s0.data n
      else host n) = s0.data n
    rw [if_pos (by rw [byteCount_div hes]; exact hn)]
  · intro n hn
    rw [copyTo_eq hp a es host e]
    show (if n < (es * a.width * a.height * a.depth) / es then s0.data n
      else host n) = host n
    rw [if_neg (by rw [byteCount_div hes]; omega)]

/-- Witness for C4: on a 2×1×2 array, the byte count divided by the element
size is exactly the four elements of the array. -/
theorem host_transfer_exact_count_witness :
    (4 * (⟨2, 1, 2, ⟨1, 1, 1⟩, ⟨1, 1, 1⟩, 0, 0, BoundaryMode.zero⟩ :
        CudaSurfaceInst).width *
      (⟨2, 1, 2, ⟨1, 1, 1⟩, ⟨1, 1, 1⟩, 0, 0, BoundaryMode.zero⟩ :
        CudaSurfaceInst).height *
      (⟨2, 1, 2, ⟨1, 1, 1⟩, ⟨1, 1, 1⟩, 0, 0, BoundaryMode.zero⟩ :
        CudaSurfaceInst).depth) / 4 =
      (⟨2, 1, 2, ⟨1, 1, 1⟩, ⟨1, 1, 1⟩, 0, 0, BoundaryMode.zero⟩ :
        CudaSurfaceInst).width *
      (⟨2, 1, 2, ⟨1, 1, 1⟩, ⟨1, 1, 1⟩, 0, 0, BoundaryMode.zero⟩ :
        CudaSurfaceInst).height *
      (⟨2, 1, 2, ⟨1, 1, 1⟩, ⟨1, 1, 1⟩, 0, 0, BoundaryMode.zero⟩ :
        CudaSurfaceInst).depth :=
  (host_transfer_exact_count
    ([some ⟨⟨2, 1, 2, false, fun _ => (0 : Int)⟩, 1⟩] : Heap Int)
    ⟨2, 1, 2, ⟨1, 1, 1⟩, ⟨1, 1, 1⟩, 0, 0, BoundaryMode.zero⟩ 4
    (fun k => (k : Int)) (fun k => (k : Int))
    ⟨2, 1, 2, false, fun _ => 0⟩ (by decide) rfl (fun _ _ => rfl)).1

/-- C5: for both leaf variants, a `get` at any out-of-extent coordinate
under the clamp-to-zero boundary mode returns zero rather than failing. -/
theorem get_out_of_extents_returns_zero {T : Type} [Zero T] (es : Nat)
    (hp : Heap T) (a2 a3 : CudaSurfaceInst) (s2 s3 : Surface T) (x y z : Int)
    (hes : 0 < es)
    (e2 : surfObj hp a2.handle = some s2) (hl2 : s2.layered = true)
    (hb2 : a2.boundaryMode = BoundaryMode.zero)
    (hout2 : ¬(0 ≤ x ∧ x < (s2.width : Int) ∧ 0 ≤ y ∧ y < (s2.height : Int) ∧
      0 ≤ z ∧ z < (s2.depth : Int)))
    (e3 : surfObj hp a3.handle = some s3) (hl3 : s3.layered = false)
    (hb3 : a3.boundaryMode = BoundaryMode.zero)
    (hout3 : ¬(0 ≤ x ∧ x < (s3.width : Int) ∧ 0 ≤ y ∧ y < (s3.height : Int) ∧
      0 ≤ z ∧ z < (s3.depth : Int))) :
    CudaSurface2DArray.get es hp a2 x y z = some 0 ∧
    CudaSurface3D.get es hp a3 x y z = some 0 := by
  constructor
  · unfold CudaSurface2DArray.get
    rw [e2, Option.some_bind]
    unfold surf2DLayeredread
    rw [hb2]
    exact surfReadAux_out_zero hes hl2 hout2
  · unfold CudaSurface3D.get
    rw [e3, Option.some_bind]
    unfold surf3Dread
    rw [hb3]
    exact surfReadAux_out_zero hes hl3 hout3

/-- Witness for C5: reads at x = 5 on 2×3×4 arrays (one layered, one 3D)
under zero boundary mode give zero. -/
theorem get_out_of_extents_returns_zero_witness :
    CudaSurface2DArray.get 4
      ([some ⟨⟨2, 3, 4, true, fun _ => (7 : Int)⟩, 1⟩,
        some ⟨⟨2, 3, 4, false, fun _ => 7⟩, 1⟩] : Heap Int)
      ⟨2, 3, 4, ⟨1, 1, 1⟩, ⟨1, 1, 1⟩, 0, 0, BoundaryMode.zero⟩ 5 0 0 =
      some 0 ∧
    CudaSurface3D.get 4
      ([some ⟨⟨2, 3, 4, true, fun _ => (7 : Int)⟩, 1⟩,
        some ⟨⟨2, 3, 4, false, fun _ => 7⟩, 1⟩] : Heap Int)
      ⟨2, 3, 4, ⟨1, 1, 1⟩, ⟨1, 1, 1⟩, 0, 1, BoundaryMode.zero⟩ 5 0 0 =
      some 0 :=
  get_out_of_extents_returns_zero 4
    ([some ⟨⟨2, 3, 4, true, fun _ => (7 : Int)⟩, 1⟩,
      some ⟨⟨2, 3, 4, false, fun _ => 7⟩, 1⟩] : Heap Int)
    ⟨2, 3, 4, ⟨1, 1, 1⟩, ⟨1, 1, 1⟩, 0, 0, BoundaryMode.zero⟩
    ⟨2, 3, 4, ⟨1, 1, 1⟩, ⟨1, 1, 1⟩, 0, 1, BoundaryMode.zero⟩
    ⟨2, 3, 4, true, fun _ => 7⟩ ⟨2, 3, 4, false, fun _ => 7⟩ 5 0 0
    (by decide) rfl rfl rfl (by decide) rfl rfl rfl (by decide)

/-- C6: `CudaSurface2DArray` dispatches `get`/`set` to the layered-2D
intrinsics and `CudaSurface3D` to the volumetric 3D intrinsics, each a direct
pass-through that scales only the x coordinate by `sizeof(T)` and forwards the
instance's boundary mode with no bounds check of its own (the first four
equations); within the extents the two variants address the same
`(x, y, z)` element of their surfaces in the documented coordinate order
(the next four); and the two intrinsic families really are distinct — each
faults on a surface of the other layout (the last two). -/
theorem leaf_dispatch_consistent {T : Type} [Zero T] (es : Nat) (hp : Heap T)
    (a2 a3 : CudaSurfaceInst) (s2 s3 : Surface T) (x y z : Int) (v : T)
    (hes : 0 < es)
    (e2 : surfObj hp a2.handle = some s2) (hl2 : s2.layered = true)
    (e3 : surfObj hp a3.handle = some s3) (hl3 : s3.layered = false)
    (hx : 0 ≤ x) (hy : 0 ≤ y) (hz : 0 ≤ z)
    (hxw2 : x < (s2.width : Int)) (hyh2 : y < (s2.height : Int))
    (hzd2 : z < (s2.depth : Int))
    (hxw3 : x < (s3.width : Int)) (hyh3 : y < (s3.height : Int))
    (hzd3 : z < (s3.depth : Int)) :
    CudaSurface2DArray.get es hp a2 x y z =
      (surfObj hp a2.handle).bind (fun so =>
        surf2DLayeredread es so ((es : Int) * x) y z a2.boundaryMode) ∧
    CudaSurface2DArray.set es hp a2 x y z v =
      (surfObj hp a2.handle).bind (fun so =>
        (surf2DLayeredwrite es v so ((es : Int) * x) y z a2.boundaryMode).map
          (fun so2 => heapWriteSurf hp a2.handle so2)) ∧
    CudaSurface3D.get es hp a3 x y z =
      (surfObj hp a3.handle).bind (fun so =>
        surf3Dread es so ((es : Int) * x) y z a3.boundaryMode) ∧
    CudaSurface3D.set es hp a3 x y z v =
      (surfObj hp a3.handle).bind (fun so =>
        (surf3Dwrite es v so ((es : Int) * x) y z a3.boundaryMode).map
          (fun so2 => heapWriteSurf hp a3.handle so2)) ∧
    CudaSurface2DArray.get es hp a2 x y z =
      some (s2.data (s2.index x.toNat y.toNat z.toNat)) ∧
    CudaSurface3D.get es hp a3 x y z =
      some (s3.data (s3.index x.toNat y.toNat z.toNat)) ∧
    CudaSurface2DArray.set es hp a2 x y z v =
      some (heapWriteSurf hp a2.handle
        (s2.store (s2.index x.toNat y.toNat z.toNat) v)) ∧
    CudaSurface3D.set es hp a3 x y z v =
      some (heapWriteSurf hp a3.handle
        (s3.store (s3.index x.toNat y.toNat z.toNat) v)) ∧
    CudaSurface2DArray.get es hp a3 x y z = none ∧
    CudaSurface3D.get es hp a2 x y z = none := by
  refine ⟨rfl, rfl, rfl, rfl, ?_, ?_, ?_, ?_, ?_, ?_⟩
  · unfold CudaSurface2DArray.get
    rw [e2, Option.some_bind]
    unfold surf2DLayeredread
    exact surfReadAux_elem hes hl2 a2.boundaryMode hx hxw2 hy hyh2 hz hzd2
  · unfold CudaSurface3D.get
    rw [e3, Option.some_bind]
    unfold surf3Dread
    exact surfReadAux_elem hes hl3 a3.boundaryMode hx hxw3 hy hyh3 hz hzd3
  · unfold CudaSurface2DArray.set
    rw [e2, Option.some_bind]
    unfold surf2DLayeredwrite
    rw [surfWriteAux_elem hes hl2 v a2.boundaryMode hx hxw2 hy hyh2 hz hzd2]
    rfl
  · unfold CudaSurface3D.set
    rw [e3, Option.some_bind]
    unfold surf3Dwrite
    rw [surfWriteAux_elem hes hl3 v a3.boundaryMode hx hxw3 hy hyh3 hz hzd3]
    rfl
  · unfold CudaSurface2DArray.get
    rw [e3, Option.some_bind]
    unfold surf2DLayeredread
    exact surfReadAux_mismatch s3 (by rw [hl3]; decide) _ _
      _ _
  · unfold CudaSurface3D.get
    rw [e2, Option.some_bind]
    unfold surf3Dread
    exact surfReadAux_mismatch s2 (by rw [hl2]; decide) _ _
      _ _

/-- Witness for C6: on 2×3×4 arrays holding their own linear index, both
leaves read element (1, 2, 3) in the documented coordinate order. -/
theorem leaf_dispatch_consistent_witness :
    CudaSurface2DArray.get 4
      ([some ⟨⟨2, 3, 4, true, fun k => (k : Int)⟩, 1⟩,
        some ⟨⟨2, 3, 4, false, fun k => (k : Int)⟩, 1⟩] : Heap Int)
      ⟨2, 3, 4, ⟨1, 1, 1⟩, ⟨1, 1, 1⟩, 0, 0, BoundaryMode.zero⟩ 1 2 3 =
      some ((⟨2, 3, 4, true, fun k => (k : Int)⟩ : Surface Int).data
        ((⟨2, 3, 4, true, fun k => (k : Int)⟩ : Surface Int).index
          (1 : Int).toNat (2 : Int).toNat (3 : Int).toNat)) ∧
    CudaSurface3D.get 4
      ([some ⟨⟨2, 3, 4, true, fun k => (k : Int)⟩, 1⟩,
        some ⟨⟨2, 3, 4, false, fun k => (k : Int)⟩, 1⟩] : Heap Int)
      ⟨2, 3, 4, ⟨1, 1, 1⟩, ⟨1, 1, 1⟩, 0, 1, BoundaryMode.zero⟩ 1 2 3 =
      some ((⟨2, 3, 4, false, fun k => (k : Int)⟩ : Surface Int).data
        ((⟨2, 3, 4, false, fun k => (k : Int)⟩ : Surface Int).index
          (1 : Int).toNat (2 : Int).toNat (3 : Int).toNat)) := by
  have H := leaf_dispatch_consistent 4
    ([some ⟨⟨2, 3, 4, true, fun k => (k : Int)⟩, 1⟩,
      some ⟨⟨2, 3, 4, false, fun k => (k : Int)⟩, 1⟩] : Heap Int)
    ⟨2, 3, 4, ⟨1, 1, 1⟩, ⟨1, 1, 1⟩, 0, 0, BoundaryMode.zero⟩
    ⟨2, 3, 4, ⟨1, 1, 1⟩, ⟨1, 1, 1⟩, 0, 1, BoundaryMode.zero⟩
    ⟨2, 3, 4, true, fun k => (k : Int)⟩
    ⟨2, 3, 4, false, fun k => (k : Int)⟩ 1 2 3 0 (by decide) rfl rfl rfl rfl
    (by decide) (by decide) (by decide) (by decide) (by decide) (by decide)
    (by decide) (by decide) (by decide)
  exact ⟨H.2.2.2.2.1, H.2.2.2.2.2.1⟩

/-- C7: copy construction and instance assignment are shallow — the new
reference carries the very same handle and the heap keeps the same
allocations with unchanged contents (assignment may at most free the
overwritten reference's old allocation, never copy one) — while the
host-array transfer methods are the only content changes and touch only
their own allocation. -/
theorem shallow_copies_share_allocation {T : Type} (hp : Heap T)
    (other : CudaSurfaceInst) (st : Store) (i j : Nat) (a : CudaSurfaceInst)
    (es : Nat) (host : Nat → T) (hi : i < st.length) :
    (copyConstruct hp other).1 = other ∧
    (copyConstruct hp other).2.length = hp.length ∧
    (∀ h, surfObj (copyConstruct hp other).2 h = surfObj hp h) ∧
    (List.getD (instAssign st hp i j).1 i dfltInst).handle =
      (List.getD st j dfltInst).handle ∧
    (instAssign st hp i j).2.length = hp.length ∧
    (∀ h, surfObj (instAssign st hp i j).2 h = surfObj hp h ∨
      surfObj (instAssign st hp i j).2 h = none) ∧
    (∀ h, h ≠ a.handle →
      surfObj (hostArrayAssign hp a es host) h = surfObj hp h) := by
  refine ⟨rfl, length_acquire hp other.handle,
    fun h => surfObj_acquire hp other.handle h, ?_, ?_, ?_, ?_⟩
  · by_cases hij : i = j
    · subst hij
      rw [instAssign_self_eq]
    · rw [instAssign_ne_eq st hp hij]
      exact congrArg CudaSurfaceInst.handle (getD_set_self_of_lt st _ _ hi)
  · by_cases hij : i = j
    · rw [hij, instAssign_self_eq]
    · rw [instAssign_ne_eq st hp hij]
      exact (length_release (acquire hp _) _).trans (length_acquire hp _)
  · intro h
    by_cases hij : i = j
    · rw [hij, instAssign_self_eq]
      exact Or.inl rfl
    · rw [instAssign_ne_eq st hp hij]
      rcases surfObj_release_or (acquire hp (List.getD st j dfltInst).handle)
        (List.getD st i dfltInst).handle h with heq | hnone
      · exact Or.inl (heq.trans (surfObj_acquire hp _ h))
      · exact Or.inr hnone
  · intro h hne
    unfold hostArrayAssign
    split
    · rfl
    · exact surfObj_heapWriteSurf_ne hp hne _

/-- Witness for C7: after assigning slot 0 from slot 1 in a two-instance
store, slot 0 carries slot 1's handle. -/
theorem shallow_copies_share_allocation_witness :
    (List.getD (instAssign
        [⟨1, 1, 1, ⟨1, 1, 1⟩, ⟨1, 1, 1⟩, 0, 0, BoundaryMode.zero⟩,
          ⟨2, 3, 4, ⟨1, 1, 1⟩, ⟨1, 1, 1⟩, 0, 1, BoundaryMode.zero⟩]
        ([some ⟨⟨1, 1, 1, false, fun _ => (5 : Int)⟩, 1⟩,
          some ⟨⟨2, 3, 4, false, fun _ => 7⟩, 1⟩] : Heap Int) 0 1).1 0
      dfltInst).handle =
    (List.getD
      [⟨1, 1, 1, ⟨1, 1, 1⟩, ⟨1, 1, 1⟩, 0, 0, BoundaryMode.zero⟩,
        ⟨2, 3, 4, ⟨1, 1, 1⟩, ⟨1, 1, 1⟩, 0, 1, BoundaryMode.zero⟩] 1
      dfltInst).handle :=
  (shallow_copies_share_allocation
    ([some ⟨⟨1, 1, 1, false, fun _ => (5 : Int)⟩, 1⟩,
      some ⟨⟨2, 3, 4, false, fun _ => 7⟩, 1⟩] : Heap Int) dfltInst
    [⟨1, 1, 1, ⟨1, 1, 1⟩, ⟨1, 1, 1⟩, 0, 0, BoundaryMode.zero⟩,
      ⟨2, 3, 4, ⟨1, 1, 1⟩, ⟨1, 1, 1⟩, 0, 1, BoundaryMode.zero⟩] 0 1 dfltInst
    4 (fun _ => 0) (by decide)).2.2.2.1

end cua

